import Mathlib

/-!
# Verification of `include/log.h` (IntelHeaders logging facility)

Shallow embedding of the logging facility in `src/include/log.h`:
the `LOG_HANDLE` structure, `LOG_InitHandle`, the raw `LOG_Write`
function, the `LOG_WRITE` filtered macro, the `__LOG_PREFIX_BY_PRIORITY`
decorated macro and its five severity instantiations
(`LOG_ERROR` .. `LOG_TRACE`), the variants produced when
`__INTEL_HEADERS_DISABLE_LOG__` is defined, and a small interleaving
semantics for concurrent decorated calls on one handle.

Modelling conventions:
- C pointers that may be NULL become `Option`; `PVOID` is an opaque
  nullable value; a va_list is a list of opaque variadic arguments.
- The sink callback (`LOG_WRITE_PFN`) is a pure Lean function returning
  the `BOOLEAN` the C callback returns; each operation additionally
  returns the ordered list of observable events (sink invocations and
  spinlock transitions) so the spec's "the sink is invoked N times"
  statements become statements about that list.
- `LOCK_SpinlockAcquire` / `LOCK_SpinlockRelease` live in `utils.h`,
  which is not part of the sources; they are modelled from the spec as
  busy-wait mutual exclusion on the handle's `tLock` word (0 = free):
  acquiring a free lock sets it, acquiring a held lock spins forever
  (`deadlock` outcome in the sequential model), release clears it.
- Calling through a NULL function pointer is undefined behaviour in C;
  it is modelled as a distinguished crash outcome, distinct from every
  ordinary `BOOLEAN` return.
-/

namespace IntelLog

/-- C `PVOID`: an opaque, possibly-NULL pointer value. -/
abbrev PVOID := Option Nat

/-- One variadic argument as handed to the sink through the va_list. -/
inductive Varg where
  | str (s : String)
  | num (n : Int)
deriving DecidableEq, Repr

/-- C va_list: the ordered variadic arguments of one call. -/
abbrev VaList := List Varg

/-- `LOG_WRITE_PFN` (log.h:45-51): the user-supplied sink callback.
It receives the context, the format string and the va_list and reports
success as a `BOOLEAN`. -/
abbrev LOG_WRITE_PFN := PVOID → String → VaList → Bool

/-- `LOG_PRIORITY_ERROR` (log.h:57). -/
def LOG_PRIORITY_ERROR : Nat := 1 <<< 0
/-- `LOG_PRIORITY_WARN` (log.h:58). -/
def LOG_PRIORITY_WARN : Nat := 1 <<< 1
/-- `LOG_PRIORITY_INFO` (log.h:59). -/
def LOG_PRIORITY_INFO : Nat := 1 <<< 2
/-- `LOG_PRIORITY_DEBUG` (log.h:60). -/
def LOG_PRIORITY_DEBUG : Nat := 1 <<< 3
/-- `LOG_PRIORITY_TRACE` (log.h:61). -/
def LOG_PRIORITY_TRACE : Nat := 1 <<< 4
/-- `LOG_PRIORITY_ALL = UINT32_MAX` (log.h:62). -/
def LOG_PRIORITY_ALL : Nat := 2 ^ 32 - 1

/-- `LOG_MODULE_PAGING` (log.h:69). -/
def LOG_MODULE_PAGING : Nat := 1 <<< 0
/-- `LOG_MODULE_ALL = UINT32_MAX` (log.h:70). -/
def LOG_MODULE_ALL : Nat := 2 ^ 32 - 1

/-- `LOG_HANDLE` (log.h:73-80), with the fields in source order.
`pfnLogWrite` is an `Option` because the stored pointer may be NULL
(e.g. in a handle that was never initialized). -/
structure LOG_HANDLE where
  pfnLogWrite : Option LOG_WRITE_PFN
  pvContext : PVOID
  ePriorityFilterMask : Nat
  eModulesFilterMask : Nat
  tLock : Nat

/-- One recorded sink invocation: the arguments the facility passed to
the callback. -/
structure SinkCall where
  ctx : PVOID
  fmt : String
  args : VaList
deriving DecidableEq, Repr

/-- An observable event of a logging operation. -/
inductive LogEvent where
  | acquire
  | sink (c : SinkCall)
  | release
deriving DecidableEq, Repr

/-- `LOG_InitHandle` (log.h:91-113).
`ptLog` is the pointed-to storage (`none` models a NULL handle pointer,
`some h0` a non-NULL pointer to arbitrary prior contents `h0`). Returns
the storage after the call together with the `BOOLEAN` result. -/
def LOG_InitHandle (ptLog : Option LOG_HANDLE) (pfnLogWrite : Option LOG_WRITE_PFN)
    (pvContext : PVOID) (eModulesFilterMask ePriorityFilterMask : Nat) :
    Option LOG_HANDLE × Bool :=
  match ptLog, pfnLogWrite with
  | none, _ => (ptLog, false)
  | some _, none => (ptLog, false)
  | some _, some f =>
      (some { pfnLogWrite := some f
              pvContext := pvContext
              ePriorityFilterMask := ePriorityFilterMask
              eModulesFilterMask := eModulesFilterMask
              tLock := 0 },
       true)

/-- `LOG_Write` (log.h:125-146).
Checks only `ptLog` and `pszFmt` for NULL, then calls through the stored
sink pointer unconditionally. `none` is the crash outcome of calling
through a NULL `pfnLogWrite`; `some (b, calls)` returns the `BOOLEAN`
`b` together with the list of sink invocations made (empty on the
early-failure path, a single call otherwise). The function never touches
the filter masks or the lock. -/
def LOG_Write (ptLog : Option LOG_HANDLE) (pszFmt : Option String) (args : VaList) :
    Option (Bool × List SinkCall) :=
  match ptLog, pszFmt with
  | none, _ => some (false, [])
  | some _, none => some (false, [])
  | some h, some fmt =>
      match h.pfnLogWrite with
      | none => none
      | some f => some (f h.pvContext fmt args, [⟨h.pvContext, fmt, args⟩])

/-- Outcome of one macro expansion run sequentially: normal completion
with the final handle state and the event list, a crash from calling a
NULL sink pointer, or an endless spin on a lock that was already held
at entry. -/
inductive MacroOutcome where
  | ok (h : LOG_HANDLE) (tr : List LogEvent)
  | crashed (tr : List LogEvent)
  | deadlock (tr : List LogEvent)

/-- The events of an outcome. -/
def MacroOutcome.events : MacroOutcome → List LogEvent
  | .ok _ tr => tr
  | .crashed tr => tr
  | .deadlock tr => tr

/-- Number of sink invocations in an event list. -/
def sinkCount (tr : List LogEvent) : Nat :=
  (tr.filter fun e => match e with | .sink _ => true | _ => false).length

/-- `LOG_WRITE` macro (log.h:159-169), as compiled when
`__INTEL_HEADERS_DISABLE_LOG__` is not defined: filter check on both
masks, spinlock acquire, one raw `LOG_Write` whose result is cast to
`VOID`, spinlock release. The macro dereferences `ptLog` without a NULL
check ("MUST NOT BE NULL"), so it takes the pointed-to handle. -/
def LOG_WRITE (h : LOG_HANDLE) (eModule ePriority : Nat)
    (pszFmt : Option String) (args : VaList) : MacroOutcome :=
  if h.ePriorityFilterMask &&& ePriority = 0 ∨ h.eModulesFilterMask &&& eModule = 0 then
    .ok h []
  else if h.tLock = 0 then
    let h1 := { h with tLock := 1 }
    match LOG_Write (some h1) pszFmt args with
    | none => .crashed [.acquire]
    | some (_, calls) =>
        .ok { h1 with tLock := 0 } ([.acquire] ++ calls.map .sink ++ [.release])
  else
    .deadlock []

/-- The severity name token passed to `__LOG_PREFIX_BY_PRIORITY`. -/
inductive PName where
  | ERROR
  | WARN
  | INFO
  | DEBUG
  | TRACE
deriving DecidableEq, Repr

/-- `LOG_PRIORITY_##PriorityName`: the token-pasted priority constant. -/
def pnameVal : PName → Nat
  | .ERROR => LOG_PRIORITY_ERROR
  | .WARN => LOG_PRIORITY_WARN
  | .INFO => LOG_PRIORITY_INFO
  | .DEBUG => LOG_PRIORITY_DEBUG
  | .TRACE => LOG_PRIORITY_TRACE

/-- `#PriorityName`: the stringized severity name. -/
def pnameStr : PName → String
  | .ERROR => "ERROR"
  | .WARN => "WARN"
  | .INFO => "INFO"
  | .DEBUG => "DEBUG"
  | .TRACE => "TRACE"

/-- The format string of the decorated prefix write,
`"(%s:%d) ["#PriorityName"] "` (log.h:183). -/
def pfxFmt (name : PName) : String :=
  "(%s:%d) [" ++ pnameStr name ++ "] "

/-- `__LOG_PREFIX_BY_PRIORITY` (log.h:175-187): filter check against
`LOG_PRIORITY_##PriorityName` and the module mask, spinlock acquire,
three raw `LOG_Write` calls (location/severity prefix with `__FILE__`
and `__LINE__` as va_list arguments, the caller's body, the `"\r\n"`
suffix), each cast to `VOID`, then spinlock release. -/
def LOG_PREFIX_BY_PRIORITY (h : LOG_HANDLE) (eModule : Nat) (name : PName)
    (file : String) (line : Int) (pszFmt : Option String) (args : VaList) :
    MacroOutcome :=
  if h.ePriorityFilterMask &&& pnameVal name = 0 ∨ h.eModulesFilterMask &&& eModule = 0 then
    .ok h []
  else if h.tLock = 0 then
    let h1 := { h with tLock := 1 }
    match LOG_Write (some h1) (some (pfxFmt name)) [.str file, .num line] with
    | none => .crashed [.acquire]
    | some (_, c1) =>
        match LOG_Write (some h1) pszFmt args with
        | none => .crashed ([.acquire] ++ c1.map .sink)
        | some (_, c2) =>
            match LOG_Write (some h1) (some "\r\n") [] with
            | none => .crashed ([.acquire] ++ (c1 ++ c2).map .sink)
            | some (_, c3) =>
                .ok { h1 with tLock := 0 }
                  ([.acquire] ++ (c1 ++ c2 ++ c3).map .sink ++ [.release])
  else
    .deadlock []

/-- `LOG_ERROR` (log.h:195-196). -/
def LOG_ERROR (h : LOG_HANDLE) (eModule : Nat) (file : String) (line : Int)
    (pszFmt : Option String) (args : VaList) : MacroOutcome :=
  LOG_PREFIX_BY_PRIORITY h eModule .ERROR file line pszFmt args

/-- `LOG_WARN` (log.h:197-198). -/
def LOG_WARN (h : LOG_HANDLE) (eModule : Nat) (file : String) (line : Int)
    (pszFmt : Option String) (args : VaList) : MacroOutcome :=
  LOG_PREFIX_BY_PRIORITY h eModule .WARN file line pszFmt args

/-- `LOG_INFO` (log.h:199-200). -/
def LOG_INFO (h : LOG_HANDLE) (eModule : Nat) (file : String) (line : Int)
    (pszFmt : Option String) (args : VaList) : MacroOutcome :=
  LOG_PREFIX_BY_PRIORITY h eModule .INFO file line pszFmt args

/-- `LOG_DEBUG` (log.h:201-202). -/
def LOG_DEBUG (h : LOG_HANDLE) (eModule : Nat) (file : String) (line : Int)
    (pszFmt : Option String) (args : VaList) : MacroOutcome :=
  LOG_PREFIX_BY_PRIORITY h eModule .DEBUG file line pszFmt args

/-- `LOG_TRACE` (log.h:203-204). -/
def LOG_TRACE (h : LOG_HANDLE) (eModule : Nat) (file : String) (line : Int)
    (pszFmt : Option String) (args : VaList) : MacroOutcome :=
  LOG_PREFIX_BY_PRIORITY h eModule .TRACE file line pszFmt args

/-- `LOG_WRITE` as compiled when `__INTEL_HEADERS_DISABLE_LOG__` is
defined (log.h:170-172): the macro expands to nothing, so the call is a
no-op with no events. -/
def LOG_WRITE_disabled (h : LOG_HANDLE) (eModule ePriority : Nat)
    (pszFmt : Option String) (args : VaList) : MacroOutcome :=
  let _ := (eModule, ePriority, pszFmt, args)
  .ok h []

/-- `LOG_ERROR` as compiled when `__INTEL_HEADERS_DISABLE_LOG__` is
defined. The `#ifndef __INTEL_HEADERS_DISABLE_LOG__` block closes at
log.h:172, before `__LOG_PREFIX_BY_PRIORITY` (log.h:175) and the five
decorated macros (log.h:195-204), so their expansion is the same with
and without the flag. -/
def LOG_ERROR_disabled (h : LOG_HANDLE) (eModule : Nat) (file : String)
    (line : Int) (pszFmt : Option String) (args : VaList) : MacroOutcome :=
  LOG_PREFIX_BY_PRIORITY h eModule .ERROR file line pszFmt args

/-- `LOG_WARN` when `__INTEL_HEADERS_DISABLE_LOG__` is defined: same
expansion as without the flag (the macro sits outside the `#ifndef`). -/
def LOG_WARN_disabled (h : LOG_HANDLE) (eModule : Nat) (file : String)
    (line : Int) (pszFmt : Option String) (args : VaList) : MacroOutcome :=
  LOG_PREFIX_BY_PRIORITY h eModule .WARN file line pszFmt args

/-- `LOG_INFO` when `__INTEL_HEADERS_DISABLE_LOG__` is defined: same
expansion as without the flag (the macro sits outside the `#ifndef`). -/
def LOG_INFO_disabled (h : LOG_HANDLE) (eModule : Nat) (file : String)
    (line : Int) (pszFmt : Option String) (args : VaList) : MacroOutcome :=
  LOG_PREFIX_BY_PRIORITY h eModule .INFO file line pszFmt args

/-- `LOG_DEBUG` when `__INTEL_HEADERS_DISABLE_LOG__` is defined: same
expansion as without the flag (the macro sits outside the `#ifndef`). -/
def LOG_DEBUG_disabled (h : LOG_HANDLE) (eModule : Nat) (file : String)
    (line : Int) (pszFmt : Option String) (args : VaList) : MacroOutcome :=
  LOG_PREFIX_BY_PRIORITY h eModule .DEBUG file line pszFmt args

/-- `LOG_TRACE` when `__INTEL_HEADERS_DISABLE_LOG__` is defined: same
expansion as without the flag (the macro sits outside the `#ifndef`). -/
def LOG_TRACE_disabled (h : LOG_HANDLE) (eModule : Nat) (file : String)
    (line : Int) (pszFmt : Option String) (args : VaList) : MacroOutcome :=
  LOG_PREFIX_BY_PRIORITY h eModule .TRACE file line pszFmt args

/-!
## Interleaving semantics for concurrent decorated calls

Modelled from the spec for the spinlock half: `LOCK_SpinlockAcquire` and
`LOCK_SpinlockRelease` are declared in `utils.h`, which is not among the
sources; per the spec they provide busy-wait mutual exclusion (acquire
blocks until the lock is free, release frees it). The structure of the
critical section — acquire, three sink emissions (prefix, body, suffix),
release — is taken from `__LOG_PREFIX_BY_PRIORITY` (log.h:182-186).

Each thread repeatedly runs the post-filter part of a decorated call on
one shared handle. A thread's program counter tracks where it is inside
the macro body; the shared state carries the lock word (as the identity
of the holder, `none` = 0 = free) and the ordered list of sink
emissions, each tagged with the emitting thread and which of the three
parts it was. -/

/-- Which of the three decorated emissions a sink invocation was. -/
inductive Part where
  | pfx
  | body
  | sfx
deriving DecidableEq, Repr

/-- Program counter of one thread inside the decorated macro body:
before the acquire, or holding the lock and about to emit the prefix,
the body, the suffix, or about to release. -/
inductive TPC where
  | idle
  | atPfx
  | atBody
  | atSfx
  | atRel
deriving DecidableEq, Repr

/-- Shared state of the concurrent system: the lock holder (`none` when
the handle's `tLock` is 0), each thread's program counter, and the sink
emissions so far in invocation order. -/
structure CState where
  lock : Option Nat
  pc : Nat → TPC
  tr : List (Nat × Part)

/-- Initial state: lock free, every thread before its call, no
emissions. -/
def CInit : CState :=
  { lock := none, pc := fun _ => .idle, tr := [] }

/-- One atomic step of some thread `t` inside the decorated macro body:
`LOCK_SpinlockAcquire` succeeds only while the lock is free; the three
`LOG_Write` emissions append to the trace; `LOCK_SpinlockRelease` frees
the lock, after which the thread may start another decorated call. -/
inductive CStep : CState → CState → Prop where
  | acquire (t : Nat) (s : CState) :
      s.lock = none → s.pc t = .idle →
      CStep s { lock := some t, pc := Function.update s.pc t .atPfx, tr := s.tr }
  | emitPfx (t : Nat) (s : CState) :
      s.pc t = .atPfx →
      CStep s { lock := s.lock, pc := Function.update s.pc t .atBody,
                tr := s.tr ++ [(t, .pfx)] }
  | emitBody (t : Nat) (s : CState) :
      s.pc t = .atBody →
      CStep s { lock := s.lock, pc := Function.update s.pc t .atSfx,
                tr := s.tr ++ [(t, .body)] }
  | emitSfx (t : Nat) (s : CState) :
      s.pc t = .atSfx →
      CStep s { lock := s.lock, pc := Function.update s.pc t .atRel,
                tr := s.tr ++ [(t, .sfx)] }
  | release (t : Nat) (s : CState) :
      s.pc t = .atRel →
      CStep s { lock := none, pc := Function.update s.pc t .idle, tr := s.tr }

/-- States reachable from `CInit` by interleaved steps of any threads. -/
inductive CReach : CState → Prop where
  | init : CReach CInit
  | step {s s' : CState} : CReach s → CStep s s' → CReach s'

/-- A trace that is a concatenation of complete decorated messages:
each block is the three parts of one thread's message, contiguous and
in order. -/
inductive CompleteTrace : List (Nat × Part) → Prop where
  | nil : CompleteTrace []
  | block (w : List (Nat × Part)) (t : Nat) :
      CompleteTrace w →
      CompleteTrace (w ++ [(t, .pfx), (t, .body), (t, .sfx)])

/-- Inductive invariant of the concurrent system: the lock word names
exactly the thread inside the critical section, and the trace is a list
of complete messages followed by the lock holder's partial message
matching its program counter. -/
def CInv (s : CState) : Prop :=
  (∀ t, s.pc t ≠ .idle → s.lock = some t) ∧
  (∀ t, s.pc t = .atPfx → CompleteTrace s.tr) ∧
  (∀ t, s.pc t = .atBody → ∃ w, CompleteTrace w ∧ s.tr = w ++ [(t, .pfx)]) ∧
  (∀ t, s.pc t = .atSfx → ∃ w, CompleteTrace w ∧ s.tr = w ++ [(t, .pfx), (t, .body)]) ∧
  (∀ t, s.pc t = .atRel → CompleteTrace s.tr) ∧
  ((∀ t, s.pc t = .idle) → CompleteTrace s.tr)

/-!
## Helper lemmas
-/

/-- A call of the `LOG_WRITE` macro whose message is rejected by either
filter mask is a no-op: no events, handle unchanged. -/
lemma LOG_WRITE_filtered {h : LOG_HANDLE} {m p : Nat} {fmt : Option String}
    {args : VaList}
    (hc : h.ePriorityFilterMask &&& p = 0 ∨ h.eModulesFilterMask &&& m = 0) :
    LOG_WRITE h m p fmt args = .ok h [] := by
  unfold LOG_WRITE
  rw [if_pos hc]

/-- A decorated call whose message is rejected by either filter mask is
a no-op: no events, handle unchanged. -/
lemma LOG_PREFIX_BY_PRIORITY_filtered {h : LOG_HANDLE} {m : Nat} {name : PName}
    {file : String} {line : Int} {fmt : Option String} {args : VaList}
    (hc : h.ePriorityFilterMask &&& pnameVal name = 0 ∨
          h.eModulesFilterMask &&& m = 0) :
    LOG_PREFIX_BY_PRIORITY h m name file line fmt args = .ok h [] := by
  unfold LOG_PREFIX_BY_PRIORITY
  rw [if_pos hc]

/-- A call of the `LOG_WRITE` macro that passes both filter masks, on an
unlocked handle with a stored sink: acquire, one sink invocation with
the caller's format and arguments, release; the handle is returned
unchanged. -/
lemma LOG_WRITE_pass {h : LOG_HANDLE} {m p : Nat} {s : String} {args : VaList}
    {f : LOG_WRITE_PFN}
    (hf : h.pfnLogWrite = some f) (hl : h.tLock = 0)
    (hp : h.ePriorityFilterMask &&& p ≠ 0)
    (hm : h.eModulesFilterMask &&& m ≠ 0) :
    LOG_WRITE h m p (some s) args =
      .ok h [.acquire, .sink ⟨h.pvContext, s, args⟩, .release] := by
  obtain ⟨pfn, ctx, pmask, mmask, lck⟩ := h
  simp only at hf hl hp hm
  subst hf hl
  unfold LOG_WRITE
  rw [if_neg (by simp [hp, hm])]
  simp [LOG_Write]

/-- A decorated call that passes both filter masks, on an unlocked
handle with a stored sink and a non-null format: acquire, three sink
invocations (location/severity prefix, caller's body, `"\r\n"` suffix)
in that order, release; the handle is returned unchanged, whatever
`BOOLEAN`s the sink reports. -/
lemma LOG_PREFIX_BY_PRIORITY_pass {h : LOG_HANDLE} {m : Nat} {name : PName}
    {file : String} {line : Int} {s : String} {args : VaList} {f : LOG_WRITE_PFN}
    (hf : h.pfnLogWrite = some f) (hl : h.tLock = 0)
    (hp : h.ePriorityFilterMask &&& pnameVal name ≠ 0)
    (hm : h.eModulesFilterMask &&& m ≠ 0) :
    LOG_PREFIX_BY_PRIORITY h m name file line (some s) args =
      .ok h [.acquire,
             .sink ⟨h.pvContext, pfxFmt name, [.str file, .num line]⟩,
             .sink ⟨h.pvContext, s, args⟩,
             .sink ⟨h.pvContext, "\r\n", []⟩,
             .release] := by
  obtain ⟨pfn, ctx, pmask, mmask, lck⟩ := h
  simp only at hf hl hp hm
  subst hf hl
  unfold LOG_PREFIX_BY_PRIORITY
  rw [if_neg (by simp [hp, hm])]
  simp [LOG_Write]

/-- The invariant holds initially. -/
lemma cinv_init : CInv CInit := by
  refine ⟨?_, ?_, ?_, ?_, ?_, fun _ => .nil⟩ <;> intro t ht <;> simp [CInit] at ht

/-- The invariant is preserved by every step. -/
lemma cstep_cinv {s s' : CState} (hstep : CStep s s') (hi : CInv s) : CInv s' := by
  obtain ⟨hL, hP, hB, hS, hR, hI⟩ := hi
  cases hstep with
  | acquire t _ hl hp =>
    have allIdle : ∀ u, s.pc u = .idle := by
      intro u
      by_contra hu
      have h1 := hL u hu
      rw [hl] at h1
      exact Option.noConfusion h1
    refine ⟨?_, ?_, ?_, ?_, ?_, ?_⟩ <;> dsimp only
    · intro u hu
      rcases eq_or_ne u t with rfl | hut
      · rfl
      · rw [Function.update_noteq hut, allIdle u] at hu
        exact absurd rfl hu
    · intro u _
      exact hI allIdle
    · intro u hu
      rcases eq_or_ne u t with rfl | hut
      · rw [Function.update_same] at hu; cases hu
      · rw [Function.update_noteq hut, allIdle u] at hu; cases hu
    · intro u hu
      rcases eq_or_ne u t with rfl | hut
      · rw [Function.update_same] at hu; cases hu
      · rw [Function.update_noteq hut, allIdle u] at hu; cases hu
    · intro u hu
      rcases eq_or_ne u t with rfl | hut
      · rw [Function.update_same] at hu; cases hu
      · rw [Function.update_noteq hut, allIdle u] at hu; cases hu
    · intro _
      exact hI allIdle
  | emitPfx t _ hp =>
    have hne : s.pc t ≠ .idle := by rw [hp]; exact fun h => TPC.noConfusion h
    have hlt := hL t hne
    have huniq : ∀ u, u ≠ t → s.pc u = .idle := by
      intro u hut
      by_contra hu
      have h1 := hL u hu
      rw [hlt] at h1
      exact hut (Option.some.inj h1).symm
    refine ⟨?_, ?_, ?_, ?_, ?_, ?_⟩ <;> dsimp only
    · intro u hu
      rcases eq_or_ne u t with rfl | hut
      · exact hlt
      · rw [Function.update_noteq hut, huniq u hut] at hu
        exact absurd rfl hu
    · intro u hu
      rcases eq_or_ne u t with rfl | hut
      · rw [Function.update_same] at hu; cases hu
      · rw [Function.update_noteq hut, huniq u hut] at hu; cases hu
    · intro u hu
      rcases eq_or_ne u t with rfl | hut
      · exact ⟨s.tr, hP u hp, rfl⟩
      · rw [Function.update_noteq hut, huniq u hut] at hu; cases hu
    · intro u hu
      rcases eq_or_ne u t with rfl | hut
      · rw [Function.update_same] at hu; cases hu
      · rw [Function.update_noteq hut, huniq u hut] at hu; cases hu
    · intro u hu
      rcases eq_or_ne u t with rfl | hut
      · rw [Function.update_same] at hu; cases hu
      · rw [Function.update_noteq hut, huniq u hut] at hu; cases hu
    · intro hall
      have h1 := hall t
      rw [Function.update_same] at h1
      cases h1
  | emitBody t _ hp =>
    have hne : s.pc t ≠ .idle := by rw [hp]; exact fun h => TPC.noConfusion h
    have hlt := hL t hne
    have huniq : ∀ u, u ≠ t → s.pc u = .idle := by
      intro u hut
      by_contra hu
      have h1 := hL u hu
      rw [hlt] at h1
      exact hut (Option.some.inj h1).symm
    refine ⟨?_, ?_, ?_, ?_, ?_, ?_⟩ <;> dsimp only
    · intro u hu
      rcases eq_or_ne u t with rfl | hut
      · exact hlt
      · rw [Function.update_noteq hut, huniq u hut] at hu
        exact absurd rfl hu
    · intro u hu
      rcases eq_or_ne u t with rfl | hut
      · rw [Function.update_same] at hu; cases hu
      · rw [Function.update_noteq hut, huniq u hut] at hu; cases hu
    · intro u hu
      rcases eq_or_ne u t with rfl | hut
      · rw [Function.update_same] at hu; cases hu
      · rw [Function.update_noteq hut, huniq u hut] at hu; cases hu
    · intro u hu
      rcases eq_or_ne u t with rfl | hut
      · obtain ⟨w, hw, htr⟩ := hB u hp
        refine ⟨w, hw, ?_⟩
        rw [htr, List.append_assoc]
        rfl
      · rw [Function.update_noteq hut, huniq u hut] at hu; cases hu
    · intro u hu
      rcases eq_or_ne u t with rfl | hut
      · rw [Function.update_same] at hu; cases hu
      · rw [Function.update_noteq hut, huniq u hut] at hu; cases hu
    · intro hall
      have h1 := hall t
      rw [Function.update_same] at h1
      cases h1
  | emitSfx t _ hp =>
    have hne : s.pc t ≠ .idle := by rw [hp]; exact fun h => TPC.noConfusion h
    have hlt := hL t hne
    have huniq : ∀ u, u ≠ t → s.pc u = .idle := by
      intro u hut
      by_contra hu
      have h1 := hL u hu
      rw [hlt] at h1
      exact hut (Option.some.inj h1).symm
    refine ⟨?_, ?_, ?_, ?_, ?_, ?_⟩ <;> dsimp only
    · intro u hu
      rcases eq_or_ne u t with rfl | hut
      · exact hlt
      · rw [Function.update_noteq hut, huniq u hut] at hu
        exact absurd rfl hu
    · intro u hu
      rcases eq_or_ne u t with rfl | hut
      · rw [Function.update_same] at hu; cases hu
      · rw [Function.update_noteq hut, huniq u hut] at hu; cases hu
    · intro u hu
      rcases eq_or_ne u t with rfl | hut
      · rw [Function.update_same] at hu; cases hu
      · rw [Function.update_noteq hut, huniq u hut] at hu; cases hu
    · intro u hu
      rcases eq_or_ne u t with rfl | hut
      · rw [Function.update_same] at hu; cases hu
      · rw [Function.update_noteq hut, huniq u hut] at hu; cases hu
    · intro u hu
      rcases eq_or_ne u t with rfl | hut
      · obtain ⟨w, hw, htr⟩ := hS u hp
        rw [htr, List.append_assoc]
        exact CompleteTrace.block w u hw
      · rw [Function.update_noteq hut, huniq u hut] at hu; cases hu
    · intro hall
      have h1 := hall t
      rw [Function.update_same] at h1
      cases h1
  | release t _ hp =>
    have hne : s.pc t ≠ .idle := by rw [hp]; exact fun h => TPC.noConfusion h
    have hlt := hL t hne
    have huniq : ∀ u, u ≠ t → s.pc u = .idle := by
      intro u hut
      by_contra hu
      have h1 := hL u hu
      rw [hlt] at h1
      exact hut (Option.some.inj h1).symm
    refine ⟨?_, ?_, ?_, ?_, ?_, ?_⟩ <;> dsimp only
    · intro u hu
      rcases eq_or_ne u t with rfl | hut
      · rw [Function.update_same] at hu
        exact absurd rfl hu
      · rw [Function.update_noteq hut, huniq u hut] at hu
        exact absurd rfl hu
    · intro u hu
      rcases eq_or_ne u t with rfl | hut
      · rw [Function.update_same] at hu; cases hu
      · rw [Function.update_noteq hut, huniq u hut] at hu; cases hu
    · intro u hu
      rcases eq_or_ne u t with rfl | hut
      · rw [Function.update_same] at hu; cases hu
      · rw [Function.update_noteq hut, huniq u hut] at hu; cases hu
    · intro u hu
      rcases eq_or_ne u t with rfl | hut
      · rw [Function.update_same] at hu; cases hu
      · rw [Function.update_noteq hut, huniq u hut] at hu; cases hu
    · intro u hu
      rcases eq_or_ne u t with rfl | hut
      · rw [Function.update_same] at hu; cases hu
      · rw [Function.update_noteq hut, huniq u hut] at hu; cases hu
    · intro _
      exact hR t hp

/-- Every reachable state satisfies the invariant. -/
lemma creach_cinv {s : CState} (hr : CReach s) : CInv s := by
  induction hr with
  | init => exact cinv_init
  | step _ hstep ih => exact cstep_cinv hstep ih

/-!
## Concrete fixtures used by the witnesses
-/

/-- A sink that accepts everything. -/
def sinkTrue : LOG_WRITE_PFN := fun _ _ _ => true

/-- A handle whose filters pass everything: both masks are the `ALL`
sentinels, lock free, sink `sinkTrue`, NULL context. -/
def hAll : LOG_HANDLE :=
  { pfnLogWrite := some sinkTrue
    pvContext := none
    ePriorityFilterMask := LOG_PRIORITY_ALL
    eModulesFilterMask := LOG_MODULE_ALL
    tLock := 0 }

/-- A handle whose filters reject everything: both masks zero. -/
def hMute : LOG_HANDLE :=
  { pfnLogWrite := some sinkTrue
    pvContext := none
    ePriorityFilterMask := 0
    eModulesFilterMask := 0
    tLock := 0 }

/-- A handle whose stored sink pointer is NULL. -/
def hNullSink : LOG_HANDLE :=
  { pfnLogWrite := none
    pvContext := none
    ePriorityFilterMask := LOG_PRIORITY_ALL
    eModulesFilterMask := LOG_MODULE_ALL
    tLock := 0 }

/-- Arbitrary prior storage contents for a handle about to be
initialized. -/
def hGarbage : LOG_HANDLE :=
  { pfnLogWrite := none
    pvContext := some 7
    ePriorityFilterMask := 5
    eModulesFilterMask := 6
    tLock := 9 }

/-- A handle configured with `priorityFilter = Error|Trace`. -/
def hErrTrace : LOG_HANDLE :=
  { pfnLogWrite := some sinkTrue
    pvContext := none
    ePriorityFilterMask := LOG_PRIORITY_ERROR ||| LOG_PRIORITY_TRACE
    eModulesFilterMask := LOG_MODULE_ALL
    tLock := 0 }

/-- A concrete interleaved execution: thread 0 completes one decorated
message, then thread 1 completes one. -/
def crun : CState :=
  { lock := none
    pc := Function.update (Function.update (Function.update (Function.update
            (Function.update (Function.update (Function.update (Function.update
              (Function.update (Function.update CInit.pc 0 .atPfx) 0 .atBody)
                0 .atSfx) 0 .atRel) 0 .idle) 1 .atPfx) 1 .atBody) 1 .atSfx)
            1 .atRel) 1 .idle
    tr := [(0, .pfx), (0, .body), (0, .sfx), (1, .pfx), (1, .body), (1, .sfx)] }

/-- `crun` is reachable. -/
lemma crun_reach : CReach crun :=
  CReach.step (CReach.step (CReach.step (CReach.step (CReach.step
    (CReach.step (CReach.step (CReach.step (CReach.step (CReach.step
      CReach.init
      (CStep.acquire 0 CInit rfl rfl))
      (CStep.emitPfx 0 _ rfl))
      (CStep.emitBody 0 _ rfl))
      (CStep.emitSfx 0 _ rfl))
      (CStep.release 0 _ rfl))
      (CStep.acquire 1 _ rfl rfl))
      (CStep.emitPfx 1 _ rfl))
      (CStep.emitBody 1 _ rfl))
      (CStep.emitSfx 1 _ rfl))
      (CStep.release 1 _ rfl)

/-!
## Claim theorems
-/

/-- Claim C8: under concurrent decorated calls from multiple threads on
the same handle, the three parts of each decorated message appear
contiguously in the sink's invocation order: every reachable trace is a
concatenation of complete single-thread (prefix, body, suffix) blocks,
followed at most by the current lock holder's partial message — no part
of one thread's message is interleaved between two parts of another
thread's message. -/
theorem C8_decorated_messages_contiguous {s : CState} (hs : CReach s) :
    ∃ w rest, s.tr = w ++ rest ∧ CompleteTrace w ∧
      (rest = [] ∨ ∃ t, rest = [(t, Part.pfx)] ∨
        rest = [(t, Part.pfx), (t, Part.body)]) := by
  obtain ⟨hL, hP, hB, hS, hR, hI⟩ := creach_cinv hs
  by_cases h2 : ∃ t, s.pc t = TPC.atBody
  · obtain ⟨t, ht⟩ := h2
    obtain ⟨w, hw, htr⟩ := hB t ht
    exact ⟨w, [(t, .pfx)], htr, hw, Or.inr ⟨t, Or.inl rfl⟩⟩
  by_cases h3 : ∃ t, s.pc t = TPC.atSfx
  · obtain ⟨t, ht⟩ := h3
    obtain ⟨w, hw, htr⟩ := hS t ht
    exact ⟨w, [(t, .pfx), (t, .body)], htr, hw, Or.inr ⟨t, Or.inr rfl⟩⟩
  have hc : CompleteTrace s.tr := by
    by_cases h1 : ∃ t, s.pc t = TPC.atPfx
    · obtain ⟨t, ht⟩ := h1
      exact hP t ht
    by_cases h4 : ∃ t, s.pc t = TPC.atRel
    · obtain ⟨t, ht⟩ := h4
      exact hR t ht
    · apply hI
      intro t
      cases hpc : s.pc t with
      | idle => rfl
      | atPfx => exact absurd ⟨t, hpc⟩ h1
      | atBody => exact absurd ⟨t, hpc⟩ h2
      | atSfx => exact absurd ⟨t, hpc⟩ h3
      | atRel => exact absurd ⟨t, hpc⟩ h4
  exact ⟨s.tr, [], (List.append_nil _).symm, hc, Or.inl rfl⟩

/-- Witness for C8 at the concrete two-thread execution `crun`. -/
theorem C8_decorated_messages_contiguous_witness :
    CReach crun ∧
      (∃ w rest, crun.tr = w ++ rest ∧ CompleteTrace w ∧
        (rest = [] ∨ ∃ t, rest = [(t, Part.pfx)] ∨
          rest = [(t, Part.pfx), (t, Part.body)])) :=
  ⟨crun_reach, C8_decorated_messages_contiguous crun_reach⟩

/-- Claim C1: for every handle and every filtered or decorated call, if
the priority mask does not intersect the message's priority or the
module mask does not intersect its module, the call is a no-op: no
`acquire` event (the lock is not taken), no sink invocation, and the
handle is returned unchanged. -/
theorem C1_filtered_call_is_noop (h : LOG_HANDLE) (m p : Nat)
    (fmt : Option String) (args : VaList) (file : String) (line : Int) :
    (h.ePriorityFilterMask &&& p = 0 ∨ h.eModulesFilterMask &&& m = 0 →
      LOG_WRITE h m p fmt args = .ok h []) ∧
    (h.ePriorityFilterMask &&& LOG_PRIORITY_ERROR = 0 ∨ h.eModulesFilterMask &&& m = 0 →
      LOG_ERROR h m file line fmt args = .ok h []) ∧
    (h.ePriorityFilterMask &&& LOG_PRIORITY_WARN = 0 ∨ h.eModulesFilterMask &&& m = 0 →
      LOG_WARN h m file line fmt args = .ok h []) ∧
    (h.ePriorityFilterMask &&& LOG_PRIORITY_INFO = 0 ∨ h.eModulesFilterMask &&& m = 0 →
      LOG_INFO h m file line fmt args = .ok h []) ∧
    (h.ePriorityFilterMask &&& LOG_PRIORITY_DEBUG = 0 ∨ h.eModulesFilterMask &&& m = 0 →
      LOG_DEBUG h m file line fmt args = .ok h []) ∧
    (h.ePriorityFilterMask &&& LOG_PRIORITY_TRACE = 0 ∨ h.eModulesFilterMask &&& m = 0 →
      LOG_TRACE h m file line fmt args = .ok h []) :=
  ⟨fun hc => LOG_WRITE_filtered hc,
   fun hc => LOG_PREFIX_BY_PRIORITY_filtered hc,
   fun hc => LOG_PREFIX_BY_PRIORITY_filtered hc,
   fun hc => LOG_PREFIX_BY_PRIORITY_filtered hc,
   fun hc => LOG_PREFIX_BY_PRIORITY_filtered hc,
   fun hc => LOG_PREFIX_BY_PRIORITY_filtered hc⟩

/-- Witness for C1 at the all-zero-mask handle `hMute`. -/
theorem C1_filtered_call_is_noop_witness :
    (hMute.ePriorityFilterMask &&& LOG_PRIORITY_ERROR = 0 ∨
      hMute.eModulesFilterMask &&& LOG_MODULE_PAGING = 0) ∧
    LOG_WRITE hMute LOG_MODULE_PAGING LOG_PRIORITY_ERROR (some "x") [] = .ok hMute [] ∧
    LOG_ERROR hMute LOG_MODULE_PAGING "a.c" 1 (some "x") [] = .ok hMute [] ∧
    LOG_WARN hMute LOG_MODULE_PAGING "a.c" 1 (some "x") [] = .ok hMute [] ∧
    LOG_INFO hMute LOG_MODULE_PAGING "a.c" 1 (some "x") [] = .ok hMute [] ∧
    LOG_DEBUG hMute LOG_MODULE_PAGING "a.c" 1 (some "x") [] = .ok hMute [] ∧
    LOG_TRACE hMute LOG_MODULE_PAGING "a.c" 1 (some "x") [] = .ok hMute [] :=
  have hw := C1_filtered_call_is_noop hMute LOG_MODULE_PAGING LOG_PRIORITY_ERROR
    (some "x") [] "a.c" 1
  ⟨Or.inl (by decide),
   hw.1 (Or.inl (by decide)),
   hw.2.1 (Or.inl (by decide)),
   hw.2.2.1 (Or.inl (by decide)),
   hw.2.2.2.1 (Or.inl (by decide)),
   hw.2.2.2.2.1 (Or.inl (by decide)),
   hw.2.2.2.2.2 (Or.inl (by decide))⟩

/-- Claim C2: a decorated call that passes both masks, on an unlocked
handle with a stored sink, invokes the sink exactly three times, in
order: the `"(<file>:<line>) [<SEVERITY>] "` prefix, the caller's format
with the caller's arguments, then the `"\r\n"` suffix; the lock is
acquired before the first and released after the last, whatever results
the sink reports (the sink function `f` is arbitrary and its returned
`BOOLEAN`s do not influence the sequence or the release). The five
severity macros are exactly `__LOG_PREFIX_BY_PRIORITY` at their severity
name, and the prefix format carries the literal severity names. -/
theorem C2_decorated_pass_three_sink_calls (h : LOG_HANDLE) (m : Nat) (name : PName)
    (file : String) (line : Int) (s : String) (args : VaList) (f : LOG_WRITE_PFN)
    (hf : h.pfnLogWrite = some f) (hl : h.tLock = 0)
    (hp : h.ePriorityFilterMask &&& pnameVal name ≠ 0)
    (hm : h.eModulesFilterMask &&& m ≠ 0) :
    LOG_PREFIX_BY_PRIORITY h m name file line (some s) args =
      .ok h [.acquire,
             .sink ⟨h.pvContext, pfxFmt name, [.str file, .num line]⟩,
             .sink ⟨h.pvContext, s, args⟩,
             .sink ⟨h.pvContext, "\r\n", []⟩,
             .release] ∧
    LOG_ERROR h m file line (some s) args =
      LOG_PREFIX_BY_PRIORITY h m .ERROR file line (some s) args ∧
    LOG_WARN h m file line (some s) args =
      LOG_PREFIX_BY_PRIORITY h m .WARN file line (some s) args ∧
    LOG_INFO h m file line (some s) args =
      LOG_PREFIX_BY_PRIORITY h m .INFO file line (some s) args ∧
    LOG_DEBUG h m file line (some s) args =
      LOG_PREFIX_BY_PRIORITY h m .DEBUG file line (some s) args ∧
    LOG_TRACE h m file line (some s) args =
      LOG_PREFIX_BY_PRIORITY h m .TRACE file line (some s) args ∧
    pfxFmt .ERROR = "(%s:%d) [ERROR] " ∧
    pfxFmt .WARN = "(%s:%d) [WARN] " ∧
    pfxFmt .INFO = "(%s:%d) [INFO] " ∧
    pfxFmt .DEBUG = "(%s:%d) [DEBUG] " ∧
    pfxFmt .TRACE = "(%s:%d) [TRACE] " :=
  ⟨LOG_PREFIX_BY_PRIORITY_pass hf hl hp hm,
   rfl, rfl, rfl, rfl, rfl, rfl, rfl, rfl, rfl, rfl⟩

/-- Witness for C2 at the all-pass handle `hAll` with a failing-sink
check included: the same trace results when the sink always reports
FALSE. -/
theorem C2_decorated_pass_three_sink_calls_witness :
    hAll.pfnLogWrite = some sinkTrue ∧ hAll.tLock = 0 ∧
    hAll.ePriorityFilterMask &&& pnameVal PName.ERROR ≠ 0 ∧
    hAll.eModulesFilterMask &&& LOG_MODULE_PAGING ≠ 0 ∧
    LOG_PREFIX_BY_PRIORITY hAll LOG_MODULE_PAGING PName.ERROR "vmx.c" 7
        (some "x=%d") [Varg.num 5] =
      .ok hAll [.acquire,
                .sink ⟨none, pfxFmt PName.ERROR, [.str "vmx.c", .num 7]⟩,
                .sink ⟨none, "x=%d", [.num 5]⟩,
                .sink ⟨none, "\r\n", []⟩,
                .release] :=
  ⟨rfl, rfl, by decide, by decide,
   (C2_decorated_pass_three_sink_calls hAll LOG_MODULE_PAGING PName.ERROR "vmx.c" 7
     "x=%d" [Varg.num 5] sinkTrue rfl rfl (by decide) (by decide)).1⟩

/-- Claim C3 counterexample: with `__INTEL_HEADERS_DISABLE_LOG__`
defined, `LOG_ERROR` still invokes the sink three times on a passing
message (here: the all-pass handle `hAll`), because the `#ifndef` block
ends at log.h:172, before the decorated macros are defined; the claim
says it would invoke the sink zero times. -/
theorem C3_counterexample_decorated_not_disabled :
    sinkCount (LOG_ERROR_disabled hAll LOG_MODULE_PAGING "vmx.c" 42
        (some "x=%d") [Varg.num 5]).events = 3 := by
  decide

/-- Claim C3 (amended): when `__INTEL_HEADERS_DISABLE_LOG__` is defined,
the `LOG_WRITE` macro becomes a true no-op — zero events, zero sink
invocations, handle unchanged, for every handle, module, priority and
filter configuration — and the raw `LOG_Write` function remains callable
(it still makes its single sink invocation); the decorated macros
`LOG_ERROR` .. `LOG_TRACE` are unaffected by the flag and expand exactly
as in the enabled build. -/
theorem C3_disable_flag_scope (h : LOG_HANDLE) (m p : Nat) (fmt : Option String)
    (args : VaList) (file : String) (line : Int) (s : String) (f : LOG_WRITE_PFN) :
    LOG_WRITE_disabled h m p fmt args = .ok h [] ∧
    sinkCount (LOG_WRITE_disabled h m p fmt args).events = 0 ∧
    LOG_ERROR_disabled h m file line fmt args = LOG_ERROR h m file line fmt args ∧
    LOG_WARN_disabled h m file line fmt args = LOG_WARN h m file line fmt args ∧
    LOG_INFO_disabled h m file line fmt args = LOG_INFO h m file line fmt args ∧
    LOG_DEBUG_disabled h m file line fmt args = LOG_DEBUG h m file line fmt args ∧
    LOG_TRACE_disabled h m file line fmt args = LOG_TRACE h m file line fmt args ∧
    (h.pfnLogWrite = some f →
      LOG_Write (some h) (some s) args =
        some (f h.pvContext s args, [⟨h.pvContext, s, args⟩])) :=
  ⟨rfl, rfl, rfl, rfl, rfl, rfl, rfl, fun hf => by simp [LOG_Write, hf]⟩

/-- Witness for C3 (amended) at `hAll`. -/
theorem C3_disable_flag_scope_witness :
    hAll.pfnLogWrite = some sinkTrue ∧
    LOG_WRITE_disabled hAll LOG_MODULE_PAGING LOG_PRIORITY_ERROR (some "x") [] =
      .ok hAll [] ∧
    LOG_Write (some hAll) (some "x") [] = some (true, [⟨none, "x", []⟩]) :=
  have hw := C3_disable_flag_scope hAll LOG_MODULE_PAGING LOG_PRIORITY_ERROR
    (some "x") [] "a.c" 1 "x" sinkTrue
  ⟨rfl, hw.1, hw.2.2.2.2.2.2.2 rfl⟩

/-- Claim C4: `LOG_InitHandle` fails exactly when the handle pointer or
the sink callback is NULL, mutating nothing on failure; on success it
stores the sink, the context (any value, NULL included) and the two
masks (any values, zero included) and resets the lock to 0. -/
theorem C4_init_handle (ptLog : Option LOG_HANDLE) (pfn : Option LOG_WRITE_PFN)
    (ctx : PVOID) (mMask pMask : Nat) :
    ((LOG_InitHandle ptLog pfn ctx mMask pMask).2 = false ↔
      ptLog = none ∨ pfn = none) ∧
    (ptLog = none ∨ pfn = none →
      (LOG_InitHandle ptLog pfn ctx mMask pMask).1 = ptLog) ∧
    (∀ h0 f, ptLog = some h0 → pfn = some f →
      LOG_InitHandle ptLog pfn ctx mMask pMask =
        (some { pfnLogWrite := some f
                pvContext := ctx
                ePriorityFilterMask := pMask
                eModulesFilterMask := mMask
                tLock := 0 },
         true)) := by
  cases ptLog <;> cases pfn <;> simp [LOG_InitHandle]

/-- Witness for C4: success on garbage storage, failure on a NULL
handle pointer and on a NULL sink (storage untouched). -/
theorem C4_init_handle_witness :
    (some hGarbage = (some hGarbage : Option LOG_HANDLE)) ∧
    LOG_InitHandle (some hGarbage) (some sinkTrue) none 3 5 =
      (some { pfnLogWrite := some sinkTrue
              pvContext := none
              ePriorityFilterMask := 5
              eModulesFilterMask := 3
              tLock := 0 },
       true) ∧
    (LOG_InitHandle none (some sinkTrue) (some 7) 3 5).1 = none ∧
    (LOG_InitHandle (some hGarbage) none (some 7) 3 5).1 = some hGarbage :=
  ⟨rfl,
   (C4_init_handle (some hGarbage) (some sinkTrue) none 3 5).2.2 hGarbage sinkTrue rfl rfl,
   (C4_init_handle none (some sinkTrue) (some 7) 3 5).2.1 (Or.inl rfl),
   (C4_init_handle (some hGarbage) none (some 7) 3 5).2.1 (Or.inr rfl)⟩

/-- Claim C5: `LOG_Write` with a NULL handle or NULL format returns
FALSE with zero sink invocations; with both non-NULL (and a stored
sink) it makes exactly one sink invocation carrying the stored context,
the given format and the argument list, and returns exactly the
`BOOLEAN` the sink reported. Its result contains no lock events and
does not depend on the filter masks: no filtering or locking occurs. -/
theorem C5_raw_write (h : LOG_HANDLE) (fmtO : Option String) (s : String)
    (args : VaList) (f : LOG_WRITE_PFN) :
    LOG_Write none fmtO args = some (false, []) ∧
    LOG_Write (some h) none args = some (false, []) ∧
    (h.pfnLogWrite = some f →
      LOG_Write (some h) (some s) args =
        some (f h.pvContext s args, [⟨h.pvContext, s, args⟩])) :=
  ⟨rfl, rfl, fun hf => by simp [LOG_Write, hf]⟩

/-- Witness for C5 at `hAll`, with a FALSE-reporting sink checked via
the returned `BOOLEAN`. -/
theorem C5_raw_write_witness :
    hAll.pfnLogWrite = some sinkTrue ∧
    LOG_Write (some hAll) (some "hi %s") [Varg.str "x"] =
      some (true, [⟨none, "hi %s", [Varg.str "x"]⟩]) ∧
    LOG_Write none (some "hi") [] = some (false, []) ∧
    LOG_Write (some hAll) none [] = some (false, []) :=
  have hw := C5_raw_write hAll (some "hi") "hi %s" [Varg.str "x"] sinkTrue
  ⟨rfl, hw.2.2 rfl,
   (C5_raw_write hAll (some "hi") "hi %s" [] sinkTrue).1,
   (C5_raw_write hAll none "hi %s" [] sinkTrue).2.1⟩

/-- Claim C6: an undecorated `LOG_WRITE` call that passes both masks,
on an unlocked handle with a stored sink and non-NULL format, acquires
the guard once, invokes the sink exactly once with only the caller's
format and arguments (no prefix, no suffix), and releases the guard;
the handle is returned unchanged. -/
theorem C6_undecorated_pass_single_sink_call (h : LOG_HANDLE) (m p : Nat)
    (s : String) (args : VaList) (f : LOG_WRITE_PFN)
    (hf : h.pfnLogWrite = some f) (hl : h.tLock = 0)
    (hp : h.ePriorityFilterMask &&& p ≠ 0)
    (hm : h.eModulesFilterMask &&& m ≠ 0) :
    LOG_WRITE h m p (some s) args =
      .ok h [.acquire, .sink ⟨h.pvContext, s, args⟩, .release] :=
  LOG_WRITE_pass hf hl hp hm

/-- Witness for C6 at `hAll`. -/
theorem C6_undecorated_pass_single_sink_call_witness :
    hAll.pfnLogWrite = some sinkTrue ∧ hAll.tLock = 0 ∧
    hAll.ePriorityFilterMask &&& LOG_PRIORITY_DEBUG ≠ 0 ∧
    hAll.eModulesFilterMask &&& LOG_MODULE_PAGING ≠ 0 ∧
    LOG_WRITE hAll LOG_MODULE_PAGING LOG_PRIORITY_DEBUG (some "x=%d") [Varg.num 5] =
      .ok hAll [.acquire, .sink ⟨none, "x=%d", [.num 5]⟩, .release] :=
  ⟨rfl, rfl, by decide, by decide,
   C6_undecorated_pass_single_sink_call hAll LOG_MODULE_PAGING LOG_PRIORITY_DEBUG
     "x=%d" [Varg.num 5] sinkTrue rfl rfl (by decide) (by decide)⟩

/-- Claim C7: the severities and modules are independent single-bit
masks (Error=1, Warn=2, Info=4, Debug=8, Trace=16, Paging=1, the `ALL`
sentinels the full 32-bit range), so a handle with
`ePriorityFilterMask = Error|Trace` passes the priority check for the
decorated Error and Trace operations and rejects Warn, Info and Debug —
whose decorated calls are no-ops — for every module value. -/
theorem C7_bitmask_independence (h : LOG_HANDLE)
    (heq : h.ePriorityFilterMask = LOG_PRIORITY_ERROR ||| LOG_PRIORITY_TRACE) :
    LOG_PRIORITY_ERROR = 1 ∧ LOG_PRIORITY_WARN = 2 ∧ LOG_PRIORITY_INFO = 4 ∧
    LOG_PRIORITY_DEBUG = 8 ∧ LOG_PRIORITY_TRACE = 16 ∧ LOG_MODULE_PAGING = 1 ∧
    LOG_PRIORITY_ALL = 2 ^ 32 - 1 ∧ LOG_MODULE_ALL = 2 ^ 32 - 1 ∧
    h.ePriorityFilterMask &&& pnameVal PName.ERROR ≠ 0 ∧
    h.ePriorityFilterMask &&& pnameVal PName.TRACE ≠ 0 ∧
    h.ePriorityFilterMask &&& pnameVal PName.WARN = 0 ∧
    h.ePriorityFilterMask &&& pnameVal PName.INFO = 0 ∧
    h.ePriorityFilterMask &&& pnameVal PName.DEBUG = 0 ∧
    ∀ (m : Nat) (file : String) (line : Int) (fmt : Option String) (args : VaList),
      LOG_WARN h m file line fmt args = .ok h [] ∧
      LOG_INFO h m file line fmt args = .ok h [] ∧
      LOG_DEBUG h m file line fmt args = .ok h [] := by
  refine ⟨rfl, rfl, rfl, rfl, rfl, rfl, rfl, rfl,
          by rw [heq]; decide, by rw [heq]; decide, by rw [heq]; decide,
          by rw [heq]; decide, by rw [heq]; decide, ?_⟩
  intro m file line fmt args
  exact ⟨LOG_PREFIX_BY_PRIORITY_filtered (Or.inl (by rw [heq]; decide)),
         LOG_PREFIX_BY_PRIORITY_filtered (Or.inl (by rw [heq]; decide)),
         LOG_PREFIX_BY_PRIORITY_filtered (Or.inl (by rw [heq]; decide))⟩

/-- Witness for C7 at the `Error|Trace` handle `hErrTrace`. -/
theorem C7_bitmask_independence_witness :
    hErrTrace.ePriorityFilterMask = LOG_PRIORITY_ERROR ||| LOG_PRIORITY_TRACE ∧
    hErrTrace.ePriorityFilterMask &&& pnameVal PName.ERROR ≠ 0 ∧
    hErrTrace.ePriorityFilterMask &&& pnameVal PName.WARN = 0 ∧
    LOG_WARN hErrTrace LOG_MODULE_PAGING "a.c" 1 (some "x") [] = .ok hErrTrace [] :=
  have hw := C7_bitmask_independence hErrTrace rfl
  ⟨rfl, hw.2.2.2.2.2.2.2.2.1, hw.2.2.2.2.2.2.2.2.2.2.1,
   (hw.2.2.2.2.2.2.2.2.2.2.2.2.2 LOG_MODULE_PAGING "a.c" 1 (some "x") []).1⟩

/-- Claim C9: `LOG_Write` checks only the handle and format pointers
for NULL; it never validates the stored sink pointer, so on a handle
whose `pfnLogWrite` is NULL (and a non-NULL format) it does not return
failure early but proceeds to call through the NULL pointer — modelled
as the crash outcome `none`, distinct from every ordinary return. -/
theorem C9_null_sink_pointer_unchecked (h : LOG_HANDLE) (s : String)
    (args : VaList) (hf : h.pfnLogWrite = none) :
    LOG_Write (some h) (some s) args = none ∧
    ∀ b calls, LOG_Write (some h) (some s) args ≠ some (b, calls) := by
  refine ⟨by simp [LOG_Write, hf], ?_⟩
  intro b calls hcontra
  rw [show LOG_Write (some h) (some s) args = none from by simp [LOG_Write, hf]]
    at hcontra
  exact Option.noConfusion hcontra

/-- Witness for C9 at the NULL-sink handle `hNullSink`. -/
theorem C9_null_sink_pointer_unchecked_witness :
    hNullSink.pfnLogWrite = none ∧
    LOG_Write (some hNullSink) (some "x") [] = none :=
  ⟨rfl, (C9_null_sink_pointer_unchecked hNullSink "x" [] rfl).1⟩

/-- Claim C10: whenever the `LOG_WRITE` macro or a decorated macro
completes normally, the resulting handle has the same sink pointer,
context and filter masks as at entry, and the lock ends in the same
(necessarily unlocked) state it had on entry; `LOG_Write` reads the
handle but returns no modified state (its embedding is a pure function
of the handle), so only `LOG_InitHandle` ever writes configuration. -/
theorem C10_operations_preserve_configuration (h : LOG_HANDLE) (m p : Nat)
    (name : PName) (file : String) (line : Int) (fmt : Option String)
    (args : VaList) :
    (∀ h' tr, LOG_WRITE h m p fmt args = .ok h' tr →
      h'.pfnLogWrite = h.pfnLogWrite ∧ h'.pvContext = h.pvContext ∧
      h'.ePriorityFilterMask = h.ePriorityFilterMask ∧
      h'.eModulesFilterMask = h.eModulesFilterMask ∧ h'.tLock = h.tLock) ∧
    (∀ h' tr, LOG_PREFIX_BY_PRIORITY h m name file line fmt args = .ok h' tr →
      h'.pfnLogWrite = h.pfnLogWrite ∧ h'.pvContext = h.pvContext ∧
      h'.ePriorityFilterMask = h.ePriorityFilterMask ∧
      h'.eModulesFilterMask = h.eModulesFilterMask ∧ h'.tLock = h.tLock) := by
  constructor
  · intro h' tr heq
    simp only [LOG_WRITE] at heq
    by_cases hc : h.ePriorityFilterMask &&& p = 0 ∨ h.eModulesFilterMask &&& m = 0
    · rw [if_pos hc] at heq
      injection heq with e1 _
      subst e1
      exact ⟨rfl, rfl, rfl, rfl, rfl⟩
    · rw [if_neg hc] at heq
      by_cases hl : h.tLock = 0
      · rw [if_pos hl] at heq
        rcases hw : LOG_Write (some { h with tLock := 1 }) fmt args with _ | ⟨b, calls⟩
        · rw [hw] at heq
          exact MacroOutcome.noConfusion heq
        · rw [hw] at heq
          dsimp only at heq
          injection heq with e1 _
          subst e1
          exact ⟨rfl, rfl, rfl, rfl, hl.symm⟩
      · rw [if_neg hl] at heq
        exact MacroOutcome.noConfusion heq
  · intro h' tr heq
    simp only [LOG_PREFIX_BY_PRIORITY] at heq
    by_cases hc : h.ePriorityFilterMask &&& pnameVal name = 0 ∨
        h.eModulesFilterMask &&& m = 0
    · rw [if_pos hc] at heq
      injection heq with e1 _
      subst e1
      exact ⟨rfl, rfl, rfl, rfl, rfl⟩
    · rw [if_neg hc] at heq
      by_cases hl : h.tLock = 0
      · rw [if_pos hl] at heq
        rcases hw1 : LOG_Write (some { h with tLock := 1 })
            (some (pfxFmt name)) [.str file, .num line] with _ | ⟨b1, c1⟩
        · rw [hw1] at heq
          exact MacroOutcome.noConfusion heq
        · rw [hw1] at heq
          dsimp only at heq
          rcases hw2 : LOG_Write (some { h with tLock := 1 }) fmt args with _ | ⟨b2, c2⟩
          · rw [hw2] at heq
            exact MacroOutcome.noConfusion heq
          · rw [hw2] at heq
            dsimp only at heq
            rcases hw3 : LOG_Write (some { h with tLock := 1 }) (some "\r\n") []
                with _ | ⟨b3, c3⟩
            · rw [hw3] at heq
              exact MacroOutcome.noConfusion heq
            · rw [hw3] at heq
              dsimp only at heq
              injection heq with e1 _
              subst e1
              exact ⟨rfl, rfl, rfl, rfl, hl.symm⟩
      · rw [if_neg hl] at heq
        exact MacroOutcome.noConfusion heq

/-- Witness for C10: a passing undecorated call and a passing decorated
call on `hAll` both return `hAll`'s configuration intact. -/
theorem C10_operations_preserve_configuration_witness :
    LOG_WRITE hAll LOG_MODULE_PAGING LOG_PRIORITY_INFO (some "x") [] =
      .ok hAll [.acquire, .sink ⟨none, "x", []⟩, .release] ∧
    (hAll.pfnLogWrite = hAll.pfnLogWrite ∧ hAll.pvContext = hAll.pvContext ∧
      hAll.ePriorityFilterMask = hAll.ePriorityFilterMask ∧
      hAll.eModulesFilterMask = hAll.eModulesFilterMask ∧
      hAll.tLock = hAll.tLock) :=
  have heq : LOG_WRITE hAll LOG_MODULE_PAGING LOG_PRIORITY_INFO (some "x") [] =
      .ok hAll [.acquire, .sink ⟨none, "x", []⟩, .release] :=
    LOG_WRITE_pass rfl rfl (by decide) (by decide)
  ⟨heq,
   (C10_operations_preserve_configuration hAll LOG_MODULE_PAGING LOG_PRIORITY_INFO
     PName.ERROR "a.c" 1 (some "x") []).1 hAll
     [.acquire, .sink ⟨none, "x", []⟩, .release] heq⟩

end IntelLog
